import Mathlib

/-!
Shallow embedding of `src/main.rs` — a bevy application rendering falling
rain over a resize-tracking gradient background.  Machine floats (`f32`)
are embedded as exact rationals; entity/asset stores are embedded as lists;
the ECS systems `setup`, `spawn_drop`, `make_drops_drop`, `despawn_drops`
and `update_background` become functions on an explicit `World` state.
A `windows.get_primary().unwrap()` on a missing window (a process panic)
is embedded as `Option.none` in the system's result.
-/

/-- A 2-component vector (bevy `Vec2`), over ℚ in place of `f32`. -/
structure Vec2 where
  x : ℚ
  y : ℚ
deriving DecidableEq

/-- A 3-component vector (bevy `Vec3`), over ℚ in place of `f32`. -/
structure Vec3 where
  x : ℚ
  y : ℚ
  z : ℚ
deriving DecidableEq

/-- An RGB color (bevy `Color::rgb`), over ℚ in place of `f32`. -/
structure Color where
  red : ℚ
  green : ℚ
  blue : ℚ
deriving DecidableEq

/-- A bevy `Transform`.  The only rotations the program constructs are
`Quat::from_rotation_z(angle)`, so the quaternion is embedded by its
z-rotation angle. -/
structure Transform where
  translation : Vec3
  rotationZ : ℚ
  scale : Vec3
deriving DecidableEq

/-- `Transform::default()`: identity translation and rotation, unit scale. -/
def Transform.default : Transform :=
  { translation := ⟨0, 0, 0⟩, rotationZ := 0, scale := ⟨1, 1, 1⟩ }

/-- `Transform::from_scale(s)` (source line 105). -/
def Transform.from_scale (s : Vec3) : Transform :=
  { Transform.default with scale := s }

/-- A bevy `Sprite` (its size field). -/
structure Sprite where
  size : Vec2
deriving DecidableEq

/-- The `Uniforms` render resource of the source: a single `size : Vec2`
pushed to the fragment shader. -/
structure Uniforms where
  size : Vec2
deriving DecidableEq

/-- A rain-streak entity (`SpriteBundle` tagged `Drop`): its transform, its
sprite extent and the handle (index into the `ColorMaterial` asset store)
of its material. -/
structure DropEntity where
  transform : Transform
  sprite : Sprite
  material : ℕ
deriving DecidableEq

/-- The primary window's current dimensions (`window.width()`,
`window.height()`). -/
structure WindowState where
  width : ℚ
  height : ℚ
deriving DecidableEq

/-- A `WindowResized` event carrying the new dimensions. -/
structure WindowResized where
  width : ℚ
  height : ℚ
deriving DecidableEq

/-- Modelled from the spec: the random source (`SmallRng` with
`gen_range(lo..hi)`) is engine/library code not under `src/`.  Per §6 it is
"capable of producing uniform floats in `[lo, hi)`"; it is embedded as a
stream of unit-interval samples (a list read at an advancing cursor,
defaulting to 0 past the end) that `gen_range` maps affinely onto
`[lo, hi)`. -/
structure Rng where
  samples : List ℚ
  idx : ℕ
deriving DecidableEq

/-- Draw the next unit sample and advance the cursor. -/
def Rng.next (r : Rng) : ℚ × Rng :=
  (r.samples.getD r.idx 0, { r with idx := r.idx + 1 })

/-- `rng.gen_range(lo..hi)` applied to a unit sample `u`. -/
def gen_range (lo hi u : ℚ) : ℚ :=
  lo + u * (hi - lo)

/-- Modelled from the spec: the repeating `Timer` primitive is bevy engine
code, not under `src/` — only its call sites (`timer.0.tick(delta)` at
source lines 124 and 163) are.  Per §4.1/§3 it holds a duration, the
accumulated elapsed time, and a `just_fired` flag; this system only ever
constructs repeating timers, so only the repeating behavior is embedded. -/
structure Timer where
  duration : ℚ
  accumulated : ℚ
  just_fired : Bool
deriving DecidableEq

/-- Modelled from the spec (§4.1): `advance(delta)` adds `delta` to the
accumulated time; while the accumulated time is ≥ the duration the timer
fires and the duration is subtracted, the remainder being re-checked
rather than floored to zero.  The subtract-while-≥ loop is expressed in
closed form through the floor of the quotient; the second component is the
number of fires this call (0 or more), and `just_fired` records whether at
least one fire happened.  A non-positive duration is "fire every tick"
(§4.1: zero duration fires every tick). -/
def Timer.tick (t : Timer) (delta : ℚ) : Timer × ℕ :=
  if 0 < t.duration then
    if t.duration ≤ t.accumulated + delta then
      ({ t with
          accumulated := t.accumulated + delta -
            ((⌊(t.accumulated + delta) / t.duration⌋).toNat : ℚ) * t.duration,
          just_fired := true },
        (⌊(t.accumulated + delta) / t.duration⌋).toNat)
    else
      ({ t with accumulated := t.accumulated + delta, just_fired := false }, 0)
  else
    ({ t with accumulated := t.accumulated + delta, just_fired := true }, 1)

/-- Total number of fires over a sequence of `tick` calls. -/
def Timer.totalFires (t : Timer) : List ℚ → ℕ
  | [] => 0
  | delta :: rest => (t.tick delta).2 + (t.tick delta).1.totalFires rest

/-- `Timer::from_seconds(d, true)` — fresh repeating timer. -/
def Timer.from_seconds (d : ℚ) : Timer :=
  { duration := d, accumulated := 0, just_fired := false }

/-- The whole mutable state the four systems touch: the primary window (if
any), the background entity's transform and sprite, the `Uniforms` asset
store, the live `Drop` entities, the `ColorMaterial` asset store, the two
timer resources and the random source. -/
structure World where
  window : Option WindowState
  background : Transform
  backgroundSprite : Sprite
  uniforms : List Uniforms
  drops : List DropEntity
  materials : List Color
  spawnTimer : Timer
  moveTimer : Timer
  rng : Rng
deriving DecidableEq

/-- The material color of every rain streak:
`Color::rgb(0.3, 0.3, 0.75)` (source line 131). -/
def dropColor : Color :=
  ⟨3/10, 3/10, 3/4⟩

/-- The `setup` startup system (source lines 74–114), restricted to the
state the core claims concern: reads the primary window, allocates one
`Uniforms` record holding the half viewport dimensions, and spawns the
background sprite whose sprite size and transform scale are both the half
dimensions (scale z = 0).  The two timer resources are inserted in `main`
with `Timer::from_seconds(0.0001, true)` (source lines 22–23). -/
def setup (win : WindowState) (rng : Rng) : World :=
  { window := some win
    background := Transform.from_scale ⟨win.width / 2, win.height / 2, 0⟩
    backgroundSprite := ⟨⟨win.width / 2, win.height / 2⟩⟩
    uniforms := [⟨⟨win.width / 2, win.height / 2⟩⟩]
    drops := []
    materials := []
    spawnTimer := Timer.from_seconds (1/10000)
    moveTimer := Timer.from_seconds (1/10000)
    rng := rng }

/-- The `SpriteBundle` spawned for one rain streak (source lines 129–140):
`x` drawn from `[-width/2, width/2)` by unit sample `u`, visual height
drawn from `[25, 75)` by unit sample `v`, sprite width 2, placed at the
top edge `y = height/2`, sheared by `-0.1` radians about z; `mat` is the
handle of its freshly added material. -/
def mkDrop (win : WindowState) (u v : ℚ) (mat : ℕ) : DropEntity :=
  { transform := { Transform.default with
      translation := ⟨gen_range (-(win.width / 2)) (win.width / 2) u, win.height / 2, 0⟩,
      rotationZ := -(1/10) },
    sprite := ⟨⟨2, gen_range 25 75 v⟩⟩,
    material := mat }

/-- One iteration of the `for _ in 0..5` loop of `spawn_drop` (source lines
126–141): draw the two random samples, add a fresh `ColorMaterial` asset,
and spawn the drop entity. -/
def spawnOne (win : WindowState) (w : World) : World :=
  let p1 := w.rng.next
  let p2 := p1.2.next
  { w with
    rng := p2.2
    materials := w.materials ++ [dropColor]
    drops := w.drops ++ [mkDrop win p1.1 p2.1 w.materials.length] }

/-- `n` iterations of the spawn loop, in program order. -/
def spawnN (win : WindowState) : ℕ → World → World
  | 0, w => w
  | n + 1, w => spawnN win n (spawnOne win w)

/-- The `spawn_drop` system (source lines 116–143): tick the spawn timer by
the frame delta; when it just fired, `windows.get_primary().unwrap()` (a
panic — `none` — when there is no window) and run the spawn loop 5 times. -/
def spawn_drop (w : World) (delta : ℚ) : Option World :=
  let t := (w.spawnTimer.tick delta).1
  let w1 := { w with spawnTimer := t }
  if t.just_fired then
    match w1.window with
    | none => none
    | some win => some (spawnN win 5 w1)
  else
    some w1

/-- The `despawn_drops` system (source lines 145–156):
`windows.get_primary().unwrap()` (a panic — `none` — when there is no
window), then despawn every `Drop` whose `translation.y < -height/2`. -/
def despawn_drops (w : World) : Option World :=
  match w.window with
  | none => none
  | some win =>
    some { w with
      drops := w.drops.filter
        (fun d => ! decide (d.transform.translation.y < -(win.height / 2))) }

/-- The per-entity body of `make_drops_drop`'s loop (source lines 164–167):
`translation.y -= 50.; translation.x -= 5.`. -/
def moveDrop (d : DropEntity) : DropEntity :=
  { d with transform := { d.transform with translation :=
      ⟨d.transform.translation.x - 5,
       d.transform.translation.y - 50,
       d.transform.translation.z⟩ } }

/-- The `make_drops_drop` system (source lines 158–169): tick the move
timer by the frame delta; when it just fired, apply the fixed displacement
to every `Drop`. -/
def make_drops_drop (w : World) (delta : ℚ) : World :=
  let t := (w.moveTimer.tick delta).1
  if t.just_fired then
    { w with moveTimer := t, drops := w.drops.map moveDrop }
  else
    { w with moveTimer := t }

/-- Processing of one `WindowResized` event by `update_background` (source
lines 176–189): set the background transform's scale x/y to the event's
full width/height (scale z untouched), then overwrite every currently
allocated `Uniforms` record with `size = (event.width, event.height)`. -/
def applyResize (w : World) (e : WindowResized) : World :=
  { w with
    background := { w.background with
      scale := ⟨e.width, e.height, w.background.scale.z⟩ }
    uniforms := w.uniforms.map (fun _ => ⟨⟨e.width, e.height⟩⟩) }

/-- The `update_background` system (source lines 171–191): process the
frame's resize events in arrival order. -/
def update_background (w : World) (events : List WindowResized) : World :=
  events.foldl applyResize w

/-- Modelled from the spec (§4.5/§6): the background's base mesh is the
engine's unit quad (a 1×1 quad centered at the origin), engine code not
under `src/`; "the displayed quad is a unit sprite stretched by this
scale". -/
def unitQuadCorners : List Vec2 :=
  [⟨-(1/2), -(1/2)⟩, ⟨1/2, -(1/2)⟩, ⟨1/2, 1/2⟩, ⟨-(1/2), 1/2⟩]

/-- Apply a transform scale to a point of the base quad (the vertex
shader's model transform restricted to the scale the program sets). -/
def stretch (s : Vec3) (c : Vec2) : Vec2 :=
  ⟨s.x * c.x, s.y * c.y⟩

/-- A world with no primary window, used to exercise the
missing-window paths. -/
def noWindowWorld : World :=
  { window := none
    background := Transform.default
    backgroundSprite := ⟨⟨1, 1⟩⟩
    uniforms := []
    drops := []
    materials := []
    spawnTimer := Timer.from_seconds 1
    moveTimer := Timer.from_seconds 1
    rng := ⟨[], 0⟩ }

/-- A concrete world over an `(800, 600)` window with two live drops, one
above and one below the bottom edge, used as witness input. -/
def sampleWorld : World :=
  { window := some ⟨800, 600⟩
    background := Transform.from_scale ⟨400, 300, 0⟩
    backgroundSprite := ⟨⟨400, 300⟩⟩
    uniforms := [⟨⟨400, 300⟩⟩]
    drops :=
      [{ transform := { Transform.default with
           translation := ⟨0, 10, 0⟩, rotationZ := -(1/10) },
         sprite := ⟨⟨2, 30⟩⟩,
         material := 0 },
       { transform := { Transform.default with
           translation := ⟨7, -400, 0⟩, rotationZ := -(1/10) },
         sprite := ⟨⟨2, 40⟩⟩,
         material := 1 }]
    materials := [dropColor, dropColor]
    spawnTimer := Timer.from_seconds 1
    moveTimer := Timer.from_seconds 1
    rng := ⟨[], 0⟩ }

/-- Claim C8: processing the same resize notification `(W, H)` twice in a
row produces no further observable change: the state after two
applications equals the state after one. -/
theorem resize_idempotent (w : World) (e : WindowResized) :
    update_background w [e, e] = update_background w [e] := by
  simp [update_background, applyResize, List.map_map, Function.comp]

/-- Claim C4: processing a resize notification sets the background
transform's scale to exactly the full `(width, height)` (not the half
extents), and the unit quad stretched by that scale has its corners
exactly at the window's corners `(±width/2, ±height/2)` — the shaded quad
fills the window exactly. -/
theorem background_resize_scale (w : World) (e : WindowResized) :
    (applyResize w e).background.scale.x = e.width ∧
    (applyResize w e).background.scale.y = e.height ∧
    unitQuadCorners.map (stretch (applyResize w e).background.scale) =
      [⟨-(e.width / 2), -(e.height / 2)⟩, ⟨e.width / 2, -(e.height / 2)⟩,
       ⟨e.width / 2, e.height / 2⟩, ⟨-(e.width / 2), e.height / 2⟩] := by
  refine ⟨rfl, rfl, ?_⟩
  simp only [unitQuadCorners, stretch, applyResize, List.map_cons, List.map_nil,
    Vec2.mk.injEq, List.cons.injEq, and_true]
  repeat' apply And.intro
  all_goals ring

/-- Claim C1, counterexample: starting from a `(800, 600)` viewport and
processing a `(1024, 768)` resize, the uniform record's `size` is the full
`(1024, 768)`, not the claimed half dimensions `(512, 384)`. -/
theorem resize_uniform_half_counterexample :
    ¬ (∀ u ∈ (update_background (setup ⟨800, 600⟩ ⟨[], 0⟩) [⟨1024, 768⟩]).uniforms,
        u.size = ⟨1024 / 2, 768 / 2⟩) := by
  have hu : (update_background (setup ⟨800, 600⟩ ⟨[], 0⟩) [⟨1024, 768⟩]).uniforms
      = [⟨⟨1024, 768⟩⟩] := by
    norm_num [update_background, applyResize, setup]
  intro h
  rw [hu] at h
  have h2 := h _ (List.mem_singleton.mpr rfl)
  simp only [Vec2.mk.injEq] at h2
  norm_num at h2

/-- Claim C1 as amended: after the Background Synchronizer processes a
batch of resize notifications the last of which carries `(W, H)`, every
currently-allocated uniform record's `size` equals the full `(W, H)` (the
source writes the full event dimensions, not the halves); before any
resize event, every record's `size` equals the half dimensions of the
viewport captured at startup. -/
theorem resize_uniform_fulldims (win : WindowState) (rng : Rng) (w : World)
    (es : List WindowResized) (e : WindowResized) :
    (∀ u ∈ (update_background w (es ++ [e])).uniforms, u.size = ⟨e.width, e.height⟩) ∧
    (∀ u ∈ (setup win rng).uniforms, u.size = ⟨win.width / 2, win.height / 2⟩) := by
  constructor
  · intro u hu
    have hsplit : update_background w (es ++ [e]) =
        applyResize (update_background w es) e := by
      simp [update_background, List.foldl_append]
    rw [hsplit] at hu
    simp only [applyResize] at hu
    obtain ⟨v, -, rfl⟩ := List.mem_map.mp hu
    rfl
  · intro u hu
    simp only [setup, List.mem_singleton] at hu
    subst hu
    rfl

/-- Witness for `resize_uniform_fulldims` at the spec's own test sequence:
startup viewport `(800, 600)`, resizes `(1024, 768)` then `(100, 100)`. -/
theorem resize_uniform_fulldims_witness :
    (Uniforms.mk ⟨100, 100⟩).size = ⟨100, 100⟩ ∧
    (Uniforms.mk ⟨800 / 2, 600 / 2⟩).size = ⟨800 / 2, 600 / 2⟩ := by
  have h := resize_uniform_fulldims ⟨800, 600⟩ ⟨[], 0⟩ (setup ⟨800, 600⟩ ⟨[], 0⟩)
    [⟨1024, 768⟩] ⟨100, 100⟩
  refine ⟨h.1 _ ?_, h.2 _ ?_⟩
  · norm_num [update_background, applyResize, setup]
  · norm_num [setup]

/-- Claim C2, counterexample: with no primary window, `despawn_drops`
hits `windows.get_primary().unwrap()` and fails (embedded as `none`), and
`spawn_drop` does the same on a tick on which its timer fires — neither is
a guarded no-op. -/
theorem missing_window_panics :
    despawn_drops noWindowWorld = none ∧ spawn_drop noWindowWorld 1 = none := by
  constructor
  · rfl
  · norm_num [spawn_drop, Timer.tick, Timer.from_seconds, noWindowWorld]

/-- Claim C2 as amended: when the primary display surface is unavailable,
the Reaper performs an unchecked `unwrap` and fails the process, and so
does the Spawner whenever its timer fired that cycle; only when the spawn
timer did not fire does the Spawner skip the window access and leave the
world unchanged apart from its ticked timer. -/
theorem missing_window_behavior (w : World) (delta : ℚ) (hw : w.window = none) :
    despawn_drops w = none ∧
    ((w.spawnTimer.tick delta).1.just_fired = true → spawn_drop w delta = none) ∧
    ((w.spawnTimer.tick delta).1.just_fired = false →
      spawn_drop w delta = some { w with spawnTimer := (w.spawnTimer.tick delta).1 }) := by
  refine ⟨?_, ?_, ?_⟩
  · simp [despawn_drops, hw]
  · intro hf
    simp [spawn_drop, hf, hw]
  · intro hf
    simp [spawn_drop, hf]

/-- Witness for `missing_window_behavior` on a concrete windowless world. -/
theorem missing_window_behavior_witness :
    despawn_drops noWindowWorld = none ∧
    ((noWindowWorld.spawnTimer.tick 1).1.just_fired = true →
      spawn_drop noWindowWorld 1 = none) ∧
    ((noWindowWorld.spawnTimer.tick 1).1.just_fired = false →
      spawn_drop noWindowWorld 1 =
        some { noWindowWorld with spawnTimer := (noWindowWorld.spawnTimer.tick 1).1 }) :=
  missing_window_behavior noWindowWorld 1 rfl

/-- Claim C9: at startup the background transform's scale is the half
dimensions `(W/2, H/2, 0)` of the startup viewport, while a resize sets
the scale to the full event dimensions; hence a resize carrying exactly
the startup dimensions doubles the x and y scale components instead of
leaving the scale unchanged. -/
theorem startup_scale_vs_resize (win : WindowState) (rng : Rng)
    (hW : 0 < win.width) (hH : 0 < win.height) :
    (setup win rng).background.scale = ⟨win.width / 2, win.height / 2, 0⟩ ∧
    (applyResize (setup win rng) ⟨win.width, win.height⟩).background.scale =
      ⟨win.width, win.height, 0⟩ ∧
    (applyResize (setup win rng) ⟨win.width, win.height⟩).background.scale.x =
      2 * (setup win rng).background.scale.x ∧
    (applyResize (setup win rng) ⟨win.width, win.height⟩).background.scale.y =
      2 * (setup win rng).background.scale.y ∧
    (applyResize (setup win rng) ⟨win.width, win.height⟩).background.scale ≠
      (setup win rng).background.scale := by
  refine ⟨rfl, rfl, ?_, ?_, ?_⟩
  · simp only [applyResize, setup, Transform.from_scale, Transform.default]
    ring
  · simp only [applyResize, setup, Transform.from_scale, Transform.default]
    ring
  intro hc
  simp only [applyResize, setup, Transform.from_scale, Transform.default,
    Vec3.mk.injEq] at hc
  obtain ⟨h1, -, -⟩ := hc
  linarith

/-- Count of an element in a filtered list, in closed form. -/
theorem count_filter_eq {α : Type} [DecidableEq α] (p : α → Bool) (l : List α) (a : α) :
    (l.filter p).count a = if p a = true then l.count a else 0 := by
  by_cases h : p a = true
  · rw [if_pos h, List.count_filter h]
  · rw [if_neg h]
    exact List.count_eq_zero.mpr (fun hm => h (List.mem_filter.mp hm).2)

/-- Claim C6: a reap cycle with viewport height `H` removes every live
particle with `y < -H/2` from the store (its count drops to zero) and
leaves every particle with `y ≥ -H/2` entirely untouched (same count,
same record), touching no other state. -/
theorem reaper_complete (w : World) (win : WindowState) (hw : w.window = some win) :
    ∃ w', despawn_drops w = some w' ∧
      (∀ d : DropEntity, w'.drops.count d =
        if d.transform.translation.y < -(win.height / 2) then 0 else w.drops.count d) ∧
      w'.window = w.window ∧ w'.background = w.background ∧
      w'.backgroundSprite = w.backgroundSprite ∧ w'.uniforms = w.uniforms ∧
      w'.materials = w.materials ∧ w'.spawnTimer = w.spawnTimer ∧
      w'.moveTimer = w.moveTimer ∧ w'.rng = w.rng := by
  refine ⟨{ w with drops := w.drops.filter fun d => ! decide (d.transform.translation.y < -(win.height / 2)) },
    ?_, ?_, rfl, rfl, rfl, rfl, rfl, rfl, rfl, rfl⟩
  · simp [despawn_drops, hw]
  · intro d
    show (w.drops.filter _).count d = _
    rw [count_filter_eq]
    by_cases hc : d.transform.translation.y < -(win.height / 2)
    · simp [hc]
    · simp [hc]

/-- Witness for `reaper_complete` on `sampleWorld`: the drop at `y = -400`
is below `-600/2` and is reaped; the drop at `y = 10` survives. -/
theorem reaper_complete_witness :
    ∃ w', despawn_drops sampleWorld = some w' ∧
      (∀ d : DropEntity, w'.drops.count d =
        if d.transform.translation.y < -((600 : ℚ) / 2) then 0
        else sampleWorld.drops.count d) ∧
      w'.window = sampleWorld.window ∧ w'.background = sampleWorld.background ∧
      w'.backgroundSprite = sampleWorld.backgroundSprite ∧
      w'.uniforms = sampleWorld.uniforms ∧
      w'.materials = sampleWorld.materials ∧ w'.spawnTimer = sampleWorld.spawnTimer ∧
      w'.moveTimer = sampleWorld.moveTimer ∧ w'.rng = sampleWorld.rng :=
  reaper_complete sampleWorld ⟨800, 600⟩ rfl

/-- Claim C7: when the move timer fires, every live particle is displaced
by exactly `(-5, -50)` (and nothing else about it changes); any
non-firing tick leaves every particle unchanged, and in particular a tick
by less than the duration from the idle state with zero accumulated time
fires nothing and leaves every particle unchanged. -/
theorem move_fixed_displacement (w : World) (delta : ℚ) :
    ((w.moveTimer.tick delta).1.just_fired = true →
      (make_drops_drop w delta).drops = w.drops.map moveDrop ∧
      ∀ d ∈ w.drops,
        (moveDrop d).transform.translation.x = d.transform.translation.x - 5 ∧
        (moveDrop d).transform.translation.y = d.transform.translation.y - 50 ∧
        (moveDrop d).transform.translation.z = d.transform.translation.z ∧
        (moveDrop d).transform.rotationZ = d.transform.rotationZ ∧
        (moveDrop d).transform.scale = d.transform.scale ∧
        (moveDrop d).sprite = d.sprite ∧
        (moveDrop d).material = d.material) ∧
    ((w.moveTimer.tick delta).1.just_fired = false →
      (make_drops_drop w delta).drops = w.drops) ∧
    (w.moveTimer.accumulated = 0 → 0 < w.moveTimer.duration →
      delta < w.moveTimer.duration →
      (make_drops_drop w delta).drops = w.drops) := by
  refine ⟨?_, ?_, ?_⟩
  · intro hf
    refine ⟨by simp [make_drops_drop, hf], ?_⟩
    intro d _
    exact ⟨rfl, rfl, rfl, rfl, rfl, rfl, rfl⟩
  · intro hnf
    simp [make_drops_drop, hnf]
  · intro h0 hd hδ
    have hle : ¬ w.moveTimer.duration ≤ w.moveTimer.accumulated + delta := by
      rw [h0, zero_add]
      exact not_le.mpr hδ
    have hnf : (w.moveTimer.tick delta).1.just_fired = false := by
      simp [Timer.tick, hd, hle]
    simp [make_drops_drop, hnf]

/-- Witness for `move_fixed_displacement` on `sampleWorld`: a tick of 1
second fires the 1-second move timer and shifts both drops by `(-5, -50)`;
a tick of half a second does not fire and moves nothing. -/
theorem move_fixed_displacement_witness :
    (sampleWorld.moveTimer.tick 1).1.just_fired = true ∧
    (make_drops_drop sampleWorld 1).drops = sampleWorld.drops.map moveDrop ∧
    (make_drops_drop sampleWorld (1/2)).drops = sampleWorld.drops := by
  have hf : (sampleWorld.moveTimer.tick 1).1.just_fired = true := by
    norm_num [Timer.tick, sampleWorld, Timer.from_seconds]
  refine ⟨hf, ((move_fixed_displacement sampleWorld 1).1 hf).1, ?_⟩
  exact (move_fixed_displacement sampleWorld (1/2)).2.2 rfl (by norm_num [sampleWorld,
    Timer.from_seconds]) (by norm_num [sampleWorld, Timer.from_seconds])

/-- Witness for `startup_scale_vs_resize` at the `(800, 600)` viewport. -/
theorem startup_scale_vs_resize_witness :
    (setup ⟨800, 600⟩ ⟨[], 0⟩).background.scale = ⟨800 / 2, 600 / 2, 0⟩ ∧
    (applyResize (setup ⟨800, 600⟩ ⟨[], 0⟩) ⟨800, 600⟩).background.scale =
      ⟨800, 600, 0⟩ ∧
    (applyResize (setup ⟨800, 600⟩ ⟨[], 0⟩) ⟨800, 600⟩).background.scale.x =
      2 * (setup ⟨800, 600⟩ ⟨[], 0⟩).background.scale.x ∧
    (applyResize (setup ⟨800, 600⟩ ⟨[], 0⟩) ⟨800, 600⟩).background.scale.y =
      2 * (setup ⟨800, 600⟩ ⟨[], 0⟩).background.scale.y ∧
    (applyResize (setup ⟨800, 600⟩ ⟨[], 0⟩) ⟨800, 600⟩).background.scale ≠
      (setup ⟨800, 600⟩ ⟨[], 0⟩).background.scale :=
  startup_scale_vs_resize ⟨800, 600⟩ ⟨[], 0⟩ (by norm_num) (by norm_num)

/-- The spawn loop only appends material assets: after `n` iterations the
material store is the old store with `n` copies of the fixed drop color
appended. -/
theorem spawnN_materials (win : WindowState) (n : ℕ) (w : World) :
    (spawnN win n w).materials = w.materials ++ List.replicate n dropColor := by
  induction n generalizing w with
  | zero => simp [spawnN]
  | succ n ih =>
    show (spawnN win n (spawnOne win w)).materials = _
    rw [ih]
    simp [spawnOne, List.replicate_succ]

/-- Claim C10: each firing of the spawn timer adds exactly 5 fresh
`ColorMaterial` assets (the fixed drop color), and no system ever removes
a material asset — the Reaper, the Motion Updater and the Background
Synchronizer leave the material store unchanged — so the allocated
material count never decreases and grows by 5 per spawn fire. -/
theorem materials_monotone (w : World) (delta : ℚ) (es : List WindowResized) :
    (∀ w', spawn_drop w delta = some w' →
      w.materials.length ≤ w'.materials.length ∧
      ((w.spawnTimer.tick delta).1.just_fired = true →
        w'.materials = w.materials ++ List.replicate 5 dropColor ∧
        w'.materials.length = w.materials.length + 5) ∧
      ((w.spawnTimer.tick delta).1.just_fired = false →
        w'.materials = w.materials)) ∧
    (∀ w', despawn_drops w = some w' → w'.materials = w.materials) ∧
    (make_drops_drop w delta).materials = w.materials ∧
    (update_background w es).materials = w.materials := by
  refine ⟨?_, ?_, ?_, ?_⟩
  · intro w' hsp
    cases hfb : (w.spawnTimer.tick delta).1.just_fired with
    | false =>
      have hw' : w' = { w with spawnTimer := (w.spawnTimer.tick delta).1 } := by
        simp only [spawn_drop, hfb, Bool.false_eq_true, if_false,
          Option.some.injEq] at hsp
        exact hsp.symm
      subst hw'
      exact ⟨le_rfl, fun h => absurd h (by simp), fun _ => rfl⟩
    | true =>
      simp only [spawn_drop, hfb, if_true] at hsp
      cases hw : w.window with
      | none =>
        rw [hw] at hsp
        exact absurd hsp (by simp)
      | some win =>
        rw [hw] at hsp
        simp only [Option.some.injEq] at hsp
        subst hsp
        refine ⟨?_, fun _ => ⟨?_, ?_⟩, fun h => absurd h (by simp)⟩
        · rw [spawnN_materials]
          simp
        · rw [spawnN_materials]
        · rw [spawnN_materials]
          simp
  · intro w' hd
    cases hw : w.window with
    | none =>
      rw [despawn_drops, hw] at hd
      exact absurd hd (by simp)
    | some win =>
      rw [despawn_drops, hw] at hd
      simp only [Option.some.injEq] at hd
      subst hd
      rfl
  · cases hfb : (w.moveTimer.tick delta).1.just_fired with
    | false => simp [make_drops_drop, hfb]
    | true => simp [make_drops_drop, hfb]
  · induction es generalizing w with
    | nil => rfl
    | cons e rest ih =>
      have hstep : update_background w (e :: rest) =
          update_background (applyResize w e) rest := rfl
      rw [hstep, ih]
      rfl

/-- Witness for `materials_monotone` on `sampleWorld`: a firing spawn tick
takes the material store from 2 entries to 7, appending 5 drop colors. -/
theorem materials_monotone_witness :
    ∃ w', spawn_drop sampleWorld 1 = some w' ∧
      w'.materials = sampleWorld.materials ++ List.replicate 5 dropColor ∧
      w'.materials.length = sampleWorld.materials.length + 5 := by
  have hf : (sampleWorld.spawnTimer.tick 1).1.just_fired = true := by
    norm_num [Timer.tick, sampleWorld, Timer.from_seconds]
  have hsp : spawn_drop sampleWorld 1 =
      some (spawnN ⟨800, 600⟩ 5
        { sampleWorld with spawnTimer := (sampleWorld.spawnTimer.tick 1).1 }) := by
    simp only [spawn_drop, hf, if_true]
    rfl
  have h := ((materials_monotone sampleWorld 1 []).1 _ hsp).2.1 hf
  exact ⟨_, hsp, h.1, h.2⟩

/-- Invariant step for the timer: starting from any accumulated time in
`[0, d)`, the total number of fires over a nonnegative delta sequence is
the floor of (accumulated + total elapsed) / duration. -/
theorem totalFires_shift (d : ℚ) (hd : 0 < d) (deltas : List ℚ) :
    ∀ (acc : ℚ) (b : Bool), 0 ≤ acc → acc < d → (∀ δ ∈ deltas, 0 ≤ δ) →
      Timer.totalFires ⟨d, acc, b⟩ deltas = (⌊(acc + deltas.sum) / d⌋).toNat := by
  induction deltas with
  | nil =>
    intro acc b h0 h1 _
    have hfl : ⌊acc / d⌋ = 0 :=
      Int.floor_eq_zero_iff.mpr ⟨div_nonneg h0 hd.le, (div_lt_one hd).mpr h1⟩
    simp [Timer.totalFires, hfl]
  | cons δ rest ih =>
    intro acc b h0 h1 hnn
    have hδ : 0 ≤ δ := hnn δ (List.mem_cons_self δ rest)
    have hrest : ∀ x ∈ rest, 0 ≤ x := fun x hx => hnn x (List.mem_cons_of_mem δ hx)
    have hsum : 0 ≤ rest.sum := List.sum_nonneg hrest
    simp only [Timer.totalFires, List.sum_cons]
    by_cases hfi : d ≤ acc + δ
    · have htick : Timer.tick ⟨d, acc, b⟩ δ =
          ({ duration := d,
             accumulated := acc + δ - ((⌊(acc + δ) / d⌋).toNat : ℚ) * d,
             just_fired := true },
            (⌊(acc + δ) / d⌋).toNat) := by
        simp [Timer.tick, hd, hfi]
      have hk1 : 1 ≤ ⌊(acc + δ) / d⌋ := by
        refine Int.le_floor.mpr ?_
        push_cast
        exact (one_le_div hd).mpr hfi
      have hk0 : (0 : ℤ) ≤ ⌊(acc + δ) / d⌋ := le_trans zero_le_one hk1
      have hkQ : (((⌊(acc + δ) / d⌋).toNat : ℕ) : ℚ) = ((⌊(acc + δ) / d⌋ : ℤ) : ℚ) := by
        exact_mod_cast congrArg (fun z : ℤ => (z : ℚ)) (Int.toNat_of_nonneg hk0)
      have hacc' : acc + δ - ((⌊(acc + δ) / d⌋).toNat : ℚ) * d =
          d * Int.fract ((acc + δ) / d) := by
        rw [hkQ, Int.fract]
        field_simp
        ring
      have hacc'0 : 0 ≤ acc + δ - ((⌊(acc + δ) / d⌋).toNat : ℚ) * d := by
        rw [hacc']
        exact mul_nonneg hd.le (Int.fract_nonneg _)
      have hacc'1 : acc + δ - ((⌊(acc + δ) / d⌋).toNat : ℚ) * d < d := by
        rw [hacc']
        calc d * Int.fract ((acc + δ) / d) < d * 1 :=
              mul_lt_mul_of_pos_left (Int.fract_lt_one _) hd
          _ = d := mul_one d
      rw [htick]
      rw [ih _ true hacc'0 hacc'1 hrest]
      have hfloor : ⌊(acc + δ - ((⌊(acc + δ) / d⌋).toNat : ℚ) * d + rest.sum) / d⌋ =
          ⌊(acc + (δ + rest.sum)) / d⌋ - ⌊(acc + δ) / d⌋ := by
        have harith : (acc + δ - ((⌊(acc + δ) / d⌋).toNat : ℚ) * d + rest.sum) / d =
            (acc + (δ + rest.sum)) / d - (⌊(acc + δ) / d⌋ : ℤ) := by
          rw [hkQ]
          field_simp
          ring
        rw [harith, Int.floor_sub_int]
      have hge : 0 ≤ ⌊(acc + δ - ((⌊(acc + δ) / d⌋).toNat : ℚ) * d + rest.sum) / d⌋ := by
        refine Int.le_floor.mpr ?_
        push_cast
        exact div_nonneg (by linarith) hd.le
      omega
    · have htick : Timer.tick ⟨d, acc, b⟩ δ =
          ({ duration := d, accumulated := acc + δ, just_fired := false }, 0) := by
        simp [Timer.tick, hd, hfi]
      rw [htick]
      rw [ih _ false (by linarith) (not_le.mp hfi) hrest]
      rw [add_assoc]
      simp

/-- Claim C3: for a repeating timer of duration `d > 0`, the total number
of fires over any sequence of `advance` calls with nonnegative deltas
summing to `T` equals `⌊T / d⌋`, independently of how `T` is partitioned
into individual deltas; a single advance spanning several durations
contributes several fires, because the remainder is re-checked rather
than floored to zero. -/
theorem timer_fire_rate (d : ℚ) (hd : 0 < d) (deltas : List ℚ)
    (hnn : ∀ δ ∈ deltas, 0 ≤ δ) :
    Timer.totalFires (Timer.from_seconds d) deltas = (⌊deltas.sum / d⌋).toNat := by
  have h := totalFires_shift d hd deltas 0 false le_rfl hd hnn
  simpa using h

/-- Witness for `timer_fire_rate`: duration 1, deltas `[5/2, 1/2, 3]`
summing to 6 — six fires in total, the first advance alone firing twice. -/
theorem timer_fire_rate_witness :
    Timer.totalFires (Timer.from_seconds 1) [5/2, 1/2, 3] = 6 := by
  have h := timer_fire_rate 1 (by norm_num) [5/2, 1/2, 3] (by norm_num)
  simp only [List.sum_cons, List.sum_nil, add_zero] at h
  norm_num at h
  simpa using h

/-- Indexing past a list into an appended replicate block yields the
replicated element. -/
theorem getElem?_append_replicate {α : Type} (l : List α) (c : α) (n i : ℕ)
    (h1 : l.length ≤ i) (h2 : i < l.length + n) :
    (l ++ List.replicate n c)[i]? = some c := by
  rw [List.getElem?_append, if_neg (by omega), List.getElem?_replicate,
    if_pos (by omega)]

/-- The rain streak built from unit samples `u, v ∈ [0, 1)` satisfies the
spawn bounds: `x ∈ [-width/2, width/2)`, height in `[25, 75)`, width 2,
top edge placement, fixed shear, default scale. -/
theorem mkDrop_props (win : WindowState) (u v : ℚ) (mat : ℕ) (hW : 0 < win.width)
    (hu0 : 0 ≤ u) (hu1 : u < 1) (hv0 : 0 ≤ v) (hv1 : v < 1) :
    -(win.width / 2) ≤ (mkDrop win u v mat).transform.translation.x ∧
    (mkDrop win u v mat).transform.translation.x < win.width / 2 ∧
    25 ≤ (mkDrop win u v mat).sprite.size.y ∧
    (mkDrop win u v mat).sprite.size.y < 75 ∧
    (mkDrop win u v mat).sprite.size.x = 2 ∧
    (mkDrop win u v mat).transform.translation.y = win.height / 2 ∧
    (mkDrop win u v mat).transform.translation.z = 0 ∧
    (mkDrop win u v mat).transform.rotationZ = -(1/10) ∧
    (mkDrop win u v mat).transform.scale = ⟨1, 1, 1⟩ ∧
    (mkDrop win u v mat).material = mat := by
  refine ⟨?_, ?_, ?_, ?_, rfl, rfl, rfl, rfl, rfl, rfl⟩
  · show -(win.width / 2) ≤ gen_range (-(win.width / 2)) (win.width / 2) u
    rw [gen_range]
    nlinarith [mul_nonneg hu0 hW.le]
  · show gen_range (-(win.width / 2)) (win.width / 2) u < win.width / 2
    rw [gen_range]
    nlinarith [mul_pos (by linarith : (0:ℚ) < 1 - u) hW]
  · show (25:ℚ) ≤ gen_range 25 75 v
    rw [gen_range]
    nlinarith [mul_nonneg hv0 (by norm_num : (0:ℚ) ≤ 50)]
  · show gen_range 25 75 v < 75
    rw [gen_range]
    nlinarith [mul_lt_mul_of_pos_right hv1 (by norm_num : (0:ℚ) < 50)]

/-- The spawn loop appends exactly `n` fresh drops, each satisfying the
spawn bounds, with material handles pointing into the freshly appended
block of the material store. -/
theorem spawnN_drops (win : WindowState) (hW : 0 < win.width) (n : ℕ) :
    ∀ (w : World), (∀ i, 0 ≤ w.rng.samples.getD i 0 ∧ w.rng.samples.getD i 0 < 1) →
      ∃ L : List DropEntity,
        (spawnN win n w).drops = w.drops ++ L ∧
        L.length = n ∧
        ∀ d ∈ L,
          -(win.width / 2) ≤ d.transform.translation.x ∧
          d.transform.translation.x < win.width / 2 ∧
          25 ≤ d.sprite.size.y ∧
          d.sprite.size.y < 75 ∧
          d.sprite.size.x = 2 ∧
          d.transform.translation.y = win.height / 2 ∧
          d.transform.translation.z = 0 ∧
          d.transform.rotationZ = -(1/10) ∧
          d.transform.scale = ⟨1, 1, 1⟩ ∧
          w.materials.length ≤ d.material ∧ d.material < w.materials.length + n := by
  induction n with
  | zero =>
    intro w _
    exact ⟨[], by simp [spawnN], rfl, by simp⟩
  | succ n ih =>
    intro w hs
    obtain ⟨L, hdrops, hlen, hprops⟩ := ih (spawnOne win w) hs
    refine ⟨mkDrop win (w.rng.samples.getD w.rng.idx 0)
        (w.rng.samples.getD (w.rng.idx + 1) 0) w.materials.length :: L, ?_, ?_, ?_⟩
    · show (spawnN win n (spawnOne win w)).drops = _
      rw [hdrops]
      simp [spawnOne, Rng.next]
    · simp [hlen]
    · intro d hd
      have hm1 : (spawnOne win w).materials.length = w.materials.length + 1 := by
        simp [spawnOne]
      rcases List.mem_cons.mp hd with hd1 | hd2
      · obtain ⟨hu0, hu1⟩ := hs w.rng.idx
        obtain ⟨hv0, hv1⟩ := hs (w.rng.idx + 1)
        obtain ⟨a1, a2, a3, a4, a5, a6, a7, a8, a9, a10⟩ :=
          mkDrop_props win (w.rng.samples.getD w.rng.idx 0)
            (w.rng.samples.getD (w.rng.idx + 1) 0) w.materials.length hW hu0 hu1 hv0 hv1
        subst hd1
        exact ⟨a1, a2, a3, a4, a5, a6, a7, a8, a9, a10.ge, by omega⟩
      · obtain ⟨a1, a2, a3, a4, a5, a6, a7, a8, a9, b1, b2⟩ := hprops d hd2
        rw [hm1] at b1 b2
        exact ⟨a1, a2, a3, a4, a5, a6, a7, a8, a9, by omega, by omega⟩

/-- Claim C5: a firing of the spawn timer with a primary window of
dimensions `(W, H)` creates exactly 5 particles, each with
`x ∈ [-W/2, W/2)`, visual height in `[25, 75)`, sprite width 2, placed at
the top edge `y = H/2`, sheared by `-0.1` radians about z, default scale,
and a freshly allocated material holding the fixed drop color. -/
theorem spawn_bounds (w : World) (delta : ℚ) (win : WindowState)
    (hw : w.window = some win) (hW : 0 < win.width)
    (hf : (w.spawnTimer.tick delta).1.just_fired = true)
    (hs : ∀ i, 0 ≤ w.rng.samples.getD i 0 ∧ w.rng.samples.getD i 0 < 1) :
    ∃ w' newDrops, spawn_drop w delta = some w' ∧
      w'.drops = w.drops ++ newDrops ∧
      newDrops.length = 5 ∧
      w'.materials = w.materials ++ List.replicate 5 dropColor ∧
      ∀ d ∈ newDrops,
        -(win.width / 2) ≤ d.transform.translation.x ∧
        d.transform.translation.x < win.width / 2 ∧
        25 ≤ d.sprite.size.y ∧
        d.sprite.size.y < 75 ∧
        d.sprite.size.x = 2 ∧
        d.transform.translation.y = win.height / 2 ∧
        d.transform.translation.z = 0 ∧
        d.transform.rotationZ = -(1/10) ∧
        d.transform.scale = ⟨1, 1, 1⟩ ∧
        w'.materials[d.material]? = some dropColor := by
  have hsp : spawn_drop w delta =
      some (spawnN win 5 { w with spawnTimer := (w.spawnTimer.tick delta).1 }) := by
    simp only [spawn_drop, hf, if_true, hw]
  obtain ⟨L, hdrops, hlen, hprops⟩ :=
    spawnN_drops win hW 5 { w with spawnTimer := (w.spawnTimer.tick delta).1 } hs
  refine ⟨_, L, hsp, ?_, hlen, ?_, ?_⟩
  · rw [hdrops]
  · rw [spawnN_materials]
  · intro d hd
    obtain ⟨a1, a2, a3, a4, a5, a6, a7, a8, a9, b1, b2⟩ := hprops d hd
    refine ⟨a1, a2, a3, a4, a5, a6, a7, a8, a9, ?_⟩
    rw [spawnN_materials]
    exact getElem?_append_replicate _ _ _ _ b1 b2

/-- Witness for `spawn_bounds` on `sampleWorld` (window `(800, 600)`,
all unit samples 0): the firing spawn tick produces 5 drops in bounds. -/
theorem spawn_bounds_witness :
    ∃ w' newDrops, spawn_drop sampleWorld 1 = some w' ∧
      w'.drops = sampleWorld.drops ++ newDrops ∧
      newDrops.length = 5 ∧
      w'.materials = sampleWorld.materials ++ List.replicate 5 dropColor ∧
      ∀ d ∈ newDrops,
        -((800 : ℚ) / 2) ≤ d.transform.translation.x ∧
        d.transform.translation.x < (800 : ℚ) / 2 ∧
        25 ≤ d.sprite.size.y ∧
        d.sprite.size.y < 75 ∧
        d.sprite.size.x = 2 ∧
        d.transform.translation.y = (600 : ℚ) / 2 ∧
        d.transform.translation.z = 0 ∧
        d.transform.rotationZ = -(1/10) ∧
        d.transform.scale = ⟨1, 1, 1⟩ ∧
        w'.materials[d.material]? = some dropColor := by
  refine spawn_bounds sampleWorld 1 ⟨800, 600⟩ rfl (by norm_num) ?_ ?_
  · norm_num [Timer.tick, sampleWorld, Timer.from_seconds]
  · intro i
    refine ⟨?_, ?_⟩ <;> norm_num [sampleWorld, List.getD]
